import Mathlib

/-!
# Formal model of the E-Library college-portal server

Shallow embedding of `data.js` (fixture data) and the Express server code
(role guard, login/signup handlers, dashboard searches, chat proxy).

JavaScript objects with role-conditional optional fields are modelled as a
structure with `Option` fields (absent field = `none`).  The external `xss`
sanitizer (an npm dependency, an external collaborator per the design) is a
parameter `xss : String → String` of every handler that uses it.  The mutable
`users` array and the per-request session (`req.session.user`) are threaded
explicitly: each handler takes the current user collection and session and
returns its response together with the updated collection/session.
-/

/-- The whitespace characters stripped by JavaScript's `String.prototype.trim`
(the ones relevant to this model). -/
def isJsWhitespace (c : Char) : Bool :=
  c == ' ' || c == '\t' || c == '\n' || c == '\r' || c == '\x0b' || c == '\x0c'

/-- JavaScript's `String.prototype.trim`: strip whitespace from both ends. -/
def jsTrim (s : String) : String :=
  String.mk (((s.data.dropWhile isJsWhitespace).reverse.dropWhile isJsWhitespace).reverse)

/-- One entry of a student's `performance` array: `{ sem, gpa }`.  GPAs are
exact decimal values in the source, modelled as rationals. -/
structure PerfEntry where
  sem : Nat
  gpa : ℚ
deriving Repr, DecidableEq

/-- A user record as stored in the `users` array.  Fields present only on
some records (`universityRoll`, `semester`, `college`, `performance`,
`reportCards` for students; `classAssigned` for teachers) are `Option`s,
`none` meaning the JS field is absent (`undefined`). -/
structure User where
  roll : String
  password : String
  name : String
  role : String
  profilePic : String
  universityRoll : Option String := none
  semester : Option Nat := none
  college : Option String := none
  performance : Option (List PerfEntry) := none
  reportCards : Option (List (Nat × String)) := none
  classAssigned : Option String := none
deriving Repr, DecidableEq

/-- The fixture student record (John Doe) from `data.js`. -/
def johnDoe : User :=
  { roll := "22111234"
    password := "pass123"
    name := "John Doe"
    role := "student"
    universityRoll := some "12345623145"
    semester := some 6
    college := some "ABC College"
    profilePic := "/assets/profile-placeholder.png"
    performance := some
      [⟨1, Rat.mk' 36 5 (by decide) (by decide)⟩,   -- 7.2
       ⟨2, Rat.mk' 15 2 (by decide) (by decide)⟩,   -- 7.5
       ⟨3, Rat.mk' 39 5 (by decide) (by decide)⟩,   -- 7.8
       ⟨4, Rat.mk' 8 1 (by decide) (by decide)⟩,    -- 8.0
       ⟨5, Rat.mk' 41 5 (by decide) (by decide)⟩,   -- 8.2
       ⟨6, Rat.mk' 17 2 (by decide) (by decide)⟩]   -- 8.5
    reportCards := some [(1, "/assets/marksheets/sem1.pdf")] }

/-- The fixture admin record from `data.js`. -/
def adminUser : User :=
  { roll := "admin001"
    password := "adminpass"
    name := "System Administrator"
    role := "admin"
    profilePic := "/assets/profile-placeholder.png" }

/-- The fixture librarian record from `data.js`. -/
def librarianUser : User :=
  { roll := "lib001"
    password := "libpass"
    name := "College Librarian"
    role := "librarian"
    profilePic := "/assets/profile-placeholder.png" }

/-- The fixture teacher record from `data.js`. -/
def teacherUser : User :=
  { roll := "teacher101"
    password := "teachpass"
    name := "Professor Smith"
    role := "teacher"
    classAssigned := some "B.Tech 6th Sem"
    profilePic := "/assets/profile-placeholder.png" }

/-- The initial `users` array exported by `data.js`. -/
def users : List User := [johnDoe, adminUser, librarianUser, teacherUser]

/-- Sanity check: the rational GPA values of the fixture student are exactly
the decimal literals written in `data.js`. -/
theorem johnDoe_performance_gpas :
    (johnDoe.performance.map (fun l => l.map PerfEntry.gpa)) =
      some [7.2, 7.5, 7.8, 8.0, 8.2, 8.5] := by
  simp only [johnDoe, Option.map_some, List.map_cons, List.map_nil]
  norm_num [Rat.mk'_eq_divInt, Rat.divInt_eq_div]

/-- An issued-book entry of `libraryData.issuedBooks`. -/
structure Book where
  title : String
  issueDate : String
  returnDate : String
deriving Repr, DecidableEq

/-- A resource entry of `libraryData.resources`. -/
structure Resource where
  type : String
  subject : String
  topic : String
  downloadUrl : String
deriving Repr, DecidableEq

/-- The `libraryData` record shape. -/
structure LibraryData where
  issuedBooks : List Book
  resources : List Resource
deriving Repr, DecidableEq

/-- The `libraryData` fixture exported by `data.js`. -/
def libraryData : LibraryData :=
  { issuedBooks :=
      [⟨"DBMS", "2025-11-10", "2025-12-10"⟩,
       ⟨"Operating Systems", "2025-11-15", "2025-12-15"⟩]
    resources :=
      [⟨"Notes", "Computer Networks", "OSI Model", "/assets/ebooks/cn-osi.pdf"⟩,
       ⟨"PYQ", "Algorithms", "Greedy", "/assets/ebooks/algo-greedy.pdf"⟩] }

/-- Outcome of the `checkRole` middleware for one request: redirect to
`/login`, a rendered error response with an HTTP status, or `next()` —
control passes to the protected handler. -/
inductive GuardResult where
  | redirectLogin
  | forbidden (status : Nat) (error : String)
  | proceed
deriving Repr, DecidableEq

/-- `checkRole(requiredRoles)` from the server: no session user → redirect
to `/login`; session user whose role is not included → 403 rendering the
`home` view with the access-denied message; otherwise `next()`. -/
def checkRole (requiredRoles : List String) (sessionUser : Option User) : GuardResult :=
  match sessionUser with
  | none => .redirectLogin
  | some u =>
    if requiredRoles.contains u.role then
      .proceed
    else
      .forbidden 403
        ("Access Denied: You do not have **" ++ String.intercalate " or " requiredRoles
          ++ "** permissions for this page.")

/-- The protected routes of the server, each with the required-role set it
registers with `checkRole`. -/
def routeGuards : List (String × List String) :=
  [("/student", ["student"]),
   ("/library", ["student", "librarian", "admin"]),
   ("/guidance", ["student", "teacher", "admin"]),
   ("/admin/dashboard", ["admin"]),
   ("/admin/search", ["admin"]),
   ("/librarian/control", ["librarian"]),
   ("/librarian/search-student", ["librarian"]),
   ("/teacher/class", ["teacher"])]

/-- The `field ? xss(field.trim()) : ''` idiom applied to body fields
(`roll`, `password`, `name`, `universityRoll`): an absent field and the
empty string (both falsy in JS) become `''`; any other string is trimmed
then sanitized. -/
def sanitizeField (xss : String → String) : Option String → String
  | none => ""
  | some s => if s = "" then "" else xss (jsTrim s)

/-- The `role ? xss(role.trim()) : 'student'` idiom of the signup handler:
an absent or empty `role` field defaults to `"student"`. -/
def sanitizeRole (xss : String → String) : Option String → String
  | none => "student"
  | some s => if s = "" then "student" else xss (jsTrim s)

/-- The post-authentication redirect switch shared verbatim by the login and
signup handlers: admin/librarian/teacher dashboards, default `/student`. -/
def roleRedirect (role : String) : String :=
  match role with
  | "admin" => "/admin/dashboard"
  | "librarian" => "/librarian/control"
  | "teacher" => "/teacher/class"
  | _ => "/student"

/-- Request body of `POST /login`; absent fields are `none`. -/
structure LoginBody where
  roll : Option String := none
  password : Option String := none
deriving Repr, DecidableEq

/-- Response of `POST /login`: an HTTP redirect, or a re-render of the
`login` view with an error message. -/
inductive LoginResponse where
  | redirect (location : String)
  | render (error : String)
deriving Repr, DecidableEq

/-- The `POST /login` handler: sanitize `roll`/`password`, scan `users` for
an exact roll+password match; on match attach the user to the session and
redirect by role, else re-render the login view and leave the session as it
was. -/
def postLogin (xss : String → String) (body : LoginBody) (users : List User)
    (session : Option User) : LoginResponse × Option User :=
  let roll := sanitizeField xss body.roll
  let password := sanitizeField xss body.password
  match users.find? (fun u => u.roll == roll && u.password == password) with
  | some user => (.redirect (roleRedirect user.role), some user)
  | none => (.render "Invalid roll or password", session)

/-- Request body of `POST /signup`; absent fields are `none`. -/
structure SignupBody where
  name : Option String := none
  roll : Option String := none
  password : Option String := none
  role : Option String := none
  universityRoll : Option String := none
deriving Repr, DecidableEq

/-- Response of `POST /signup`: an HTTP redirect, or a re-render of the
`signup-form` view with the selected role and an error message. -/
inductive SignupResponse where
  | redirect (location : String)
  | renderForm (selectedRole : String) (error : String)
deriving Repr, DecidableEq

/-- The `newUser` record constructed by the `POST /signup` handler from the
sanitized body fields: the common header plus the role-conditional fields
(students get `semester = 1`, `college = 'N/A'`, empty
`performance`/`reportCards`; teachers get a default `classAssigned`). -/
def signupNewUser (xss : String → String) (body : SignupBody) : User :=
  let name := sanitizeField xss body.name
  let roll := sanitizeField xss body.roll
  let password := sanitizeField xss body.password
  let role := sanitizeRole xss body.role
  let base : User :=
    { name := name, roll := roll, password := password, role := role,
      profilePic := "/assets/profile-placeholder.png" }
  if role = "student" then
    { base with
        universityRoll := some (sanitizeField xss body.universityRoll),
        semester := some 1,
        college := some "N/A",
        performance := some [],
        reportCards := some [] }
  else if role = "teacher" then
    { base with classAssigned := some "B.Tech 6th Sem (Default)" }
  else base

/-- The `POST /signup` handler: sanitize all fields, reject when an existing
record has the same roll, otherwise build `signupNewUser`, append it to
`users`, attach it to the session and redirect by role.  Returns
`(response, updated users, updated session)`. -/
def postSignup (xss : String → String) (body : SignupBody) (users : List User)
    (session : Option User) : SignupResponse × List User × Option User :=
  let roll := sanitizeField xss body.roll
  let role := sanitizeRole xss body.role
  match users.find? (fun u => u.roll == roll) with
  | some _ => (.renderForm role "Roll number already registered.", users, session)
  | none =>
    let newUser := signupNewUser xss body
    (.redirect (roleRedirect role), users ++ [newUser], some newUser)

/-- The `studentIssueRecords` object built by `POST /librarian/search-student`
when a student is found. -/
structure IssueRecords where
  studentName : String
  studentRoll : String
  books : List Book
deriving Repr, DecidableEq

/-- The data passed to the `librarian/control` view by
`POST /librarian/search-student`: the issue records (or `null`) and the raw
query echoed back. -/
structure LibrarianControlView where
  studentIssueRecords : Option IssueRecords
  searchRoll : Option String
deriving Repr, DecidableEq

/-- The `POST /librarian/search-student` handler body (after the librarian
guard): sanitize the roll, find a student-role user with that roll; if found,
build issue records whose `books` are `libraryData.issuedBooks` exactly when
the roll is the hardcoded `'22111234'`, else the empty list; if not found the
records value stays `null`. -/
def searchStudent (xss : String → String) (roll : Option String)
    (users : List User) : LibrarianControlView :=
  let sanitizedRoll := sanitizeField xss roll
  let student := users.find? (fun u => u.roll == sanitizedRoll && u.role == "student")
  let issueRecords : Option IssueRecords :=
    match student with
    | some s =>
        some { studentName := s.name
               studentRoll := s.roll
               books := if s.roll = "22111234" then libraryData.issuedBooks else [] }
    | none => none
  { studentIssueRecords := issueRecords, searchRoll := roll }

/-- The data passed to the `teacher/class` view by `GET /teacher/class`. -/
structure TeacherClassView where
  teacher : User
  classStudents : List User
  assignedClass : Option String
deriving Repr, DecidableEq

/-- The `GET /teacher/class` handler body (after the teacher guard): filter
`users` for student-role records whose `semester` equals the fixed
`assignedSemester = 6`, and pass the teacher's `classAssigned` through as a
label. -/
def teacherClass (teacher : User) (users : List User) : TeacherClassView :=
  let assignedSemester := 6
  let classStudents :=
    users.filter (fun u => u.role == "student" && u.semester == some assignedSemester)
  { teacher := teacher, classStudents := classStudents,
    assignedClass := teacher.classAssigned }

/-- The upstream completion's message object (`choices[i].message`). -/
structure ChatMessage where
  content : String
deriving Repr, DecidableEq

/-- One element of the upstream completion's `choices` array. -/
structure ChatChoice where
  message : ChatMessage
deriving Repr, DecidableEq

/-- The upstream completion object returned by the external service. -/
structure ChatCompletion where
  choices : List ChatChoice
deriving Repr, DecidableEq

/-- A JSON response of `POST /chat`: HTTP status and the `reply` field. -/
structure ChatResponse where
  status : Nat
  reply : String
deriving Repr, DecidableEq

/-- The `POST /chat` handler.  The awaited external call is modelled by its
outcome `upstream`: `.error` when the call throws (network, quota, malformed
response).  On success the handler reads `completion.choices[0].message.content`
— when `choices` is empty that property access itself throws inside the
`try`, landing in the same `catch` — and replies with it as JSON (status
200); every caught error yields status 500 with the fixed apology string. -/
def postChat (upstream : Except String ChatCompletion) : ChatResponse :=
  match upstream with
  | .error _ => { status := 500, reply := "Sorry — something went wrong." }
  | .ok completion =>
    match completion.choices with
    | [] => { status := 500, reply := "Sorry — something went wrong." }
    | choice :: _ => { status := 200, reply := choice.message.content }

/-! ## Helper lemmas -/

/-- `Array.prototype.includes` / `List.contains` agrees with membership. -/
theorem contains_iff_mem (R : List String) (r : String) : R.contains r = true ↔ r ∈ R :=
  List.elem_iff

/-- The sanitizer idiom on a present field evaluates to `xss` of the trim. -/
theorem sanitizeField_some (xss : String → String) (s : String) (h : s ≠ "") :
    sanitizeField xss (some s) = xss (jsTrim s) := by
  simp [sanitizeField, h]

/-! ## Claims -/

/-- C1: for every protected route (each one registered with the `checkRole`
guard) and its required-role set R: a request whose session has no attached
user is answered with a redirect to `/login` and the handler never runs; a
session user whose role is not in R gets a 403 rendering the access-denied
view whose message names the roles of R, and the handler never runs; a
session user whose role is in R proceeds to the handler. -/
theorem checkRole_contract (route : String) (R : List String)
    (hroute : (route, R) ∈ routeGuards) (session : Option User) :
    (session = none → checkRole R session = .redirectLogin) ∧
    (∀ u, session = some u → u.role ∉ R →
      checkRole R session = .forbidden 403
        ("Access Denied: You do not have **" ++ String.intercalate " or " R
          ++ "** permissions for this page.")) ∧
    (∀ u, session = some u → u.role ∈ R → checkRole R session = .proceed) := by
  refine ⟨fun h => by rw [h]; rfl, fun u hu hrole => ?_, fun u hu hrole => ?_⟩
  · rw [hu]
    simp only [checkRole]
    rw [if_neg (fun hc => hrole ((contains_iff_mem R u.role).mp hc))]
  · rw [hu]
    simp only [checkRole]
    rw [if_pos ((contains_iff_mem R u.role).mpr hrole)]

/-- Witness for C1: the `/student` route with role set `["student"]`, at a
session with no user (redirect), the fixture admin (403), and the fixture
student (proceed). -/
theorem checkRole_contract_witness :
    ("/student", ["student"]) ∈ routeGuards ∧
    checkRole ["student"] none = .redirectLogin ∧
    checkRole ["student"] (some adminUser) = .forbidden 403
      "Access Denied: You do not have **student** permissions for this page." ∧
    checkRole ["student"] (some johnDoe) = .proceed :=
  ⟨by decide,
   (checkRole_contract "/student" ["student"] (by decide) none).1 rfl,
   (checkRole_contract "/student" ["student"] (by decide) (some adminUser)).2.1
     adminUser rfl (by decide),
   (checkRole_contract "/student" ["student"] (by decide) (some johnDoe)).2.2
     johnDoe rfl (by decide)⟩

/-- C2: `POST /login` with roll `"22111234"` and password `"pass123"`
attaches the fixture student to the session and redirects to `/student`;
any login whose credentials match no record (non-existent roll, or wrong
password for an existing roll) re-renders the login view with an error and
leaves the session without an attached user. -/
theorem postLogin_contract (xss : String → String)
    (h1 : xss "22111234" = "22111234") (h2 : xss "pass123" = "pass123")
    (badRoll badPassword : Option String)
    (hbad : ∀ u ∈ users, u.roll ≠ sanitizeField xss badRoll ∨
      u.password ≠ sanitizeField xss badPassword) :
    postLogin xss ⟨some "22111234", some "pass123"⟩ users none =
      (.redirect "/student", some johnDoe) ∧
    postLogin xss ⟨badRoll, badPassword⟩ users none =
      (.render "Invalid roll or password", none) := by
  constructor
  · have hr : sanitizeField xss (some "22111234") = "22111234" := by
      rw [sanitizeField_some xss _ (by decide), show jsTrim "22111234" = "22111234" by decide, h1]
    have hp : sanitizeField xss (some "pass123") = "pass123" := by
      rw [sanitizeField_some xss _ (by decide), show jsTrim "pass123" = "pass123" by decide, h2]
    simp only [postLogin, hr, hp]
    decide
  · have hf : users.find? (fun u => u.roll == sanitizeField xss badRoll &&
        u.password == sanitizeField xss badPassword) = none := by
      rw [List.find?_eq_none]
      intro u hu hc
      simp only [Bool.and_eq_true, beq_iff_eq] at hc
      rcases hbad u hu with h | h
      · exact h hc.1
      · exact h hc.2
    simp only [postLogin, hf]

/-- Witness for C2: the identity sanitizer, with the failing attempt made at
a non-existent roll. -/
theorem postLogin_contract_witness :
    postLogin id ⟨some "22111234", some "pass123"⟩ users none =
      (.redirect "/student", some johnDoe) ∧
    postLogin id ⟨some "nosuch", some "wrongpass"⟩ users none =
      (.render "Invalid roll or password", none) :=
  postLogin_contract id rfl rfl (some "nosuch") (some "wrongpass") (by decide)

/-- The roll stored in the signup record is the sanitized body roll,
whichever role branch is taken. -/
theorem signupNewUser_roll (xss : String → String) (body : SignupBody) :
    (signupNewUser xss body).roll = sanitizeField xss body.roll := by
  simp only [signupNewUser]
  split
  · rfl
  · split <;> rfl

/-- The password stored in the signup record is the sanitized body password. -/
theorem signupNewUser_password (xss : String → String) (body : SignupBody) :
    (signupNewUser xss body).password = sanitizeField xss body.password := by
  simp only [signupNewUser]
  split
  · rfl
  · split <;> rfl

/-- The role stored in the signup record is the sanitized body role. -/
theorem signupNewUser_role (xss : String → String) (body : SignupBody) :
    (signupNewUser xss body).role = sanitizeRole xss body.role := by
  simp only [signupNewUser]
  split
  · rfl
  · split <;> rfl

/-- Evaluation of `POST /signup` when the roll scan finds an existing record. -/
theorem postSignup_duplicate_eq (xss : String → String) (body : SignupBody)
    (users' : List User) (session : Option User) (u : User)
    (h : users'.find? (fun u => u.roll == sanitizeField xss body.roll) = some u) :
    postSignup xss body users' session =
      (.renderForm (sanitizeRole xss body.role) "Roll number already registered.",
       users', session) := by
  simp only [postSignup, h]

/-- Evaluation of `POST /signup` when no existing record has the roll. -/
theorem postSignup_fresh_eq (xss : String → String) (body : SignupBody)
    (users' : List User) (session : Option User)
    (h : users'.find? (fun u => u.roll == sanitizeField xss body.roll) = none) :
    postSignup xss body users' session =
      (.redirect (roleRedirect (sanitizeRole xss body.role)),
       users' ++ [signupNewUser xss body], some (signupNewUser xss body)) := by
  simp only [postSignup, h]

/-- A fresh roll in Prop form gives `find? = none`. -/
theorem signup_find_none (xss : String → String) (body : SignupBody)
    (users' : List User)
    (hfresh : ∀ u ∈ users', u.roll ≠ sanitizeField xss body.roll) :
    users'.find? (fun u => u.roll == sanitizeField xss body.roll) = none := by
  rw [List.find?_eq_none]
  intro u hu hc
  exact hfresh u hu (beq_iff_eq.mp hc)

/-- C3: a `POST /signup` whose sanitized roll equals the roll of a record
already in the collection is rejected by re-rendering the signup form with
the duplicate-registration message, and the collection is unchanged;
consequently any signup request preserves pairwise-distinct rolls. -/
theorem postSignup_duplicate_contract (xss : String → String) (body : SignupBody)
    (users' : List User) (session : Option User) :
    ((∃ u ∈ users', u.roll = sanitizeField xss body.roll) →
      postSignup xss body users' session =
        (.renderForm (sanitizeRole xss body.role) "Roll number already registered.",
         users', session)) ∧
    ((users'.map User.roll).Nodup →
      (((postSignup xss body users' session).2.1).map User.roll).Nodup) := by
  constructor
  · rintro ⟨u, hu, hroll⟩
    rcases hfind : users'.find? (fun v => v.roll == sanitizeField xss body.roll)
      with _ | v
    · exact absurd (beq_iff_eq.mpr hroll) (List.find?_eq_none.mp hfind u hu)
    · exact postSignup_duplicate_eq xss body users' session v hfind
  · intro hnd
    rcases hfind : users'.find? (fun v => v.roll == sanitizeField xss body.roll)
      with _ | v
    · rw [postSignup_fresh_eq xss body users' session hfind]
      rw [List.map_append, List.nodup_append]
      refine ⟨hnd, by simp, ?_⟩
      intro a ha hb
      simp only [List.map_cons, List.map_nil, List.mem_cons, List.not_mem_nil,
        or_false] at hb
      rw [signupNewUser_roll] at hb
      obtain ⟨u, hu, rfl⟩ := List.mem_map.mp ha
      exact List.find?_eq_none.mp hfind u hu (beq_iff_eq.mpr hb)
    · rw [postSignup_duplicate_eq xss body users' session v hfind]
      exact hnd

/-- Witness for C3: signing up again with the fixture roll `"22111234"` is
rejected and leaves the fixture collection (whose rolls are distinct)
unchanged. -/
theorem postSignup_duplicate_contract_witness :
    postSignup id { roll := some "22111234", role := some "student" } users none =
      (.renderForm "student" "Roll number already registered.", users, none) ∧
    (((postSignup id { roll := some "22111234", role := some "student" }
        users none).2.1).map User.roll).Nodup := by
  have h := postSignup_duplicate_contract id
    { roll := some "22111234", role := some "student" } users none
  exact ⟨h.1 ⟨johnDoe, by decide, by decide⟩, h.2 (by decide)⟩

/-- C4: a `POST /signup` with a fresh sanitized roll and sanitized role
`"student"` appends exactly one record, with `semester = 1`, empty
`performance` and empty `reportCards`, attaches it to the session — so the
`/student` guard now lets the session proceed — and redirects to
`/student`. -/
theorem postSignup_student_contract (xss : String → String) (body : SignupBody)
    (users' : List User) (session : Option User)
    (hfresh : ∀ u ∈ users', u.roll ≠ sanitizeField xss body.roll)
    (hrole : sanitizeRole xss body.role = "student") :
    postSignup xss body users' session =
      (.redirect "/student", users' ++ [signupNewUser xss body],
       some (signupNewUser xss body)) ∧
    (signupNewUser xss body).semester = some 1 ∧
    (signupNewUser xss body).performance = some [] ∧
    (signupNewUser xss body).reportCards = some [] ∧
    checkRole ["student"] (some (signupNewUser xss body)) = .proceed := by
  refine ⟨?_, ?_, ?_, ?_, ?_⟩
  · rw [postSignup_fresh_eq xss body users' session
      (signup_find_none xss body users' hfresh), hrole]
    rfl
  · simp only [signupNewUser, hrole]
    rfl
  · simp only [signupNewUser, hrole]
    rfl
  · simp only [signupNewUser, hrole]
    rfl
  · simp only [checkRole, signupNewUser_role, hrole]
    rfl

/-- Witness for C4: a concrete student signup with fresh roll `"x123"` on the
fixture collection. -/
theorem postSignup_student_contract_witness :
    postSignup id ⟨some "Alice", some "x123", some "pw", some "student", none⟩
        users none =
      (.redirect "/student",
       users ++ [signupNewUser id ⟨some "Alice", some "x123", some "pw",
         some "student", none⟩],
       some (signupNewUser id ⟨some "Alice", some "x123", some "pw",
         some "student", none⟩)) ∧
    (signupNewUser id ⟨some "Alice", some "x123", some "pw", some "student",
      none⟩).semester = some 1 ∧
    (signupNewUser id ⟨some "Alice", some "x123", some "pw", some "student",
      none⟩).performance = some [] ∧
    (signupNewUser id ⟨some "Alice", some "x123", some "pw", some "student",
      none⟩).reportCards = some [] ∧
    checkRole ["student"] (some (signupNewUser id ⟨some "Alice", some "x123",
      some "pw", some "student", none⟩)) = .proceed :=
  postSignup_student_contract id
    ⟨some "Alice", some "x123", some "pw", some "student", none⟩ users none
    (by decide) (by decide)

/-- C5: on a fresh-roll signup the appended record's role is stored verbatim
as the sanitized, trimmed body role — with no validation against the allowed
role set — and an absent or empty role field is stored as `"student"`. -/
theorem postSignup_role_verbatim (xss : String → String) (body : SignupBody)
    (users' : List User) (session : Option User)
    (hfresh : ∀ u ∈ users', u.roll ≠ sanitizeField xss body.roll) :
    (postSignup xss body users' session).2.1 = users' ++ [signupNewUser xss body] ∧
    (∀ r, body.role = some r → r ≠ "" →
      (signupNewUser xss body).role = xss (jsTrim r)) ∧
    ((body.role = none ∨ body.role = some "") →
      (signupNewUser xss body).role = "student") := by
  refine ⟨?_, ?_, ?_⟩
  · rw [postSignup_fresh_eq xss body users' session
      (signup_find_none xss body users' hfresh)]
  · intro r hr hne
    rw [signupNewUser_role, hr]
    simp [sanitizeRole, hne]
  · rintro (hr | hr) <;> rw [signupNewUser_role, hr] <;> rfl

/-- Witness for C5: the arbitrary role string `"superuser"` (outside the
allowed set) is stored verbatim; an absent role is stored as `"student"`. -/
theorem postSignup_role_verbatim_witness :
    (postSignup id { roll := some "zz9", role := some "superuser" }
        users none).2.1 =
      users ++ [signupNewUser id { roll := some "zz9", role := some "superuser" }] ∧
    (signupNewUser id { roll := some "zz9", role := some "superuser" }).role =
      "superuser" ∧
    (signupNewUser id { roll := some "zz8" }).role = "student" := by
  have h1 := postSignup_role_verbatim id
    { roll := some "zz9", role := some "superuser" } users none (by decide)
  have h2 := postSignup_role_verbatim id { roll := some "zz8" } users none
    (by decide)
  refine ⟨h1.1, ?_, h2.2.2 (Or.inl rfl)⟩
  rw [h1.2.1 "superuser" rfl (by decide)]
  decide

/-- Credentials matching no record give `find? = none` in the login scan. -/
theorem login_find_none (xss : String → String) (b : LoginBody) (users' : List User)
    (h : ∀ u ∈ users', u.roll ≠ sanitizeField xss b.roll ∨
      u.password ≠ sanitizeField xss b.password) :
    users'.find? (fun u => u.roll == sanitizeField xss b.roll &&
      u.password == sanitizeField xss b.password) = none := by
  rw [List.find?_eq_none]
  intro u hu hc
  simp only [Bool.and_eq_true, beq_iff_eq] at hc
  rcases h u hu with h' | h'
  · exact h' hc.1
  · exact h' hc.2

/-- C6: a librarian search for roll `"22111234"` on the fixture collection
returns exactly the two fixture issued-book entries; a search finding any
student-role record with a different roll returns an empty book list; a
search matching no student-role record constructs no issue-record view. -/
theorem searchStudent_contract (xss : String → String)
    (hx : xss "22111234" = "22111234") (roll : Option String) (users' : List User) :
    (searchStudent xss (some "22111234") users).studentIssueRecords =
      some { studentName := "John Doe", studentRoll := "22111234",
             books := [⟨"DBMS", "2025-11-10", "2025-12-10"⟩,
                       ⟨"Operating Systems", "2025-11-15", "2025-12-15"⟩] } ∧
    (∀ s, users'.find? (fun u => u.roll == sanitizeField xss roll &&
        u.role == "student") = some s → s.roll ≠ "22111234" →
      (searchStudent xss roll users').studentIssueRecords =
        some { studentName := s.name, studentRoll := s.roll, books := [] }) ∧
    (users'.find? (fun u => u.roll == sanitizeField xss roll &&
        u.role == "student") = none →
      (searchStudent xss roll users').studentIssueRecords = none) := by
  refine ⟨?_, ?_, ?_⟩
  · have hr : sanitizeField xss (some "22111234") = "22111234" := by
      rw [sanitizeField_some xss _ (by decide),
        show jsTrim "22111234" = "22111234" by decide, hx]
    simp only [searchStudent, hr]
    decide
  · intro s hs hne
    simp only [searchStudent, hs]
    rw [if_neg hne]
  · intro hs
    simp only [searchStudent, hs]

/-- Witness for C6: the fixture roll, a one-student collection with a
different roll (empty book list), and a roll matching no student. -/
theorem searchStudent_contract_witness :
    (searchStudent id (some "22111234") users).studentIssueRecords =
      some { studentName := "John Doe", studentRoll := "22111234",
             books := [⟨"DBMS", "2025-11-10", "2025-12-10"⟩,
                       ⟨"Operating Systems", "2025-11-15", "2025-12-15"⟩] } ∧
    (searchStudent id (some "b1")
        [{ roll := "b1", password := "p", name := "Bob", role := "student",
           profilePic := "x" }]).studentIssueRecords =
      some { studentName := "Bob", studentRoll := "b1", books := [] } ∧
    (searchStudent id (some "nosuch") users).studentIssueRecords = none := by
  have h1 := searchStudent_contract id rfl (some "b1")
    [{ roll := "b1", password := "p", name := "Bob", role := "student",
       profilePic := "x" }]
  have h2 := searchStudent_contract id rfl (some "nosuch") users
  exact ⟨h1.1,
    h1.2.1 ⟨"b1", "p", "Bob", "student", "x", none, none, none, none, none, none⟩
      (by decide) (by decide),
    h2.2.2 (by decide)⟩

/-- C7: the teacher class view contains exactly the student-role records of
the collection whose `semester` is 6, in collection order (it is a sublist
of the collection), and the list does not depend on the requesting teacher —
in particular not on `classAssigned`, which is only passed through as a
display label. -/
theorem teacherClass_contract (teacher t₂ : User) (users' : List User) :
    ((teacherClass teacher users').classStudents =
      (teacherClass t₂ users').classStudents) ∧
    (∀ u, u ∈ (teacherClass teacher users').classStudents ↔
      (u ∈ users' ∧ u.role = "student" ∧ u.semester = some 6)) ∧
    ((teacherClass teacher users').classStudents.Sublist users') ∧
    ((teacherClass teacher users').assignedClass = teacher.classAssigned) := by
  refine ⟨rfl, ?_, ?_, rfl⟩
  · intro u
    simp only [teacherClass]
    rw [List.mem_filter]
    simp [Bool.and_eq_true, beq_iff_eq, and_assoc]
  · simp only [teacherClass]
    exact List.filter_sublist users'

/-- Witness for C7: on the fixture collection the class list is the fixture
student for any requesting teacher, including one with a different
`classAssigned`. -/
theorem teacherClass_contract_witness :
    johnDoe ∈ (teacherClass teacherUser users).classStudents ∧
    (teacherClass teacherUser users).classStudents =
      (teacherClass adminUser users).classStudents ∧
    (teacherClass teacherUser users).assignedClass = some "B.Tech 6th Sem" := by
  have h := teacherClass_contract teacherUser adminUser users
  exact ⟨(h.2.1 johnDoe).mpr ⟨by decide, by decide, by decide⟩, h.1, h.2.2.2⟩

/-- C8: any two failing `POST /login` requests — in particular one with an
existing roll but wrong password and one with a non-existent roll — produce
identical responses (same re-rendered login view, same generic message, same
session), so the response does not reveal whether the roll exists. -/
theorem postLogin_failure_indistinguishable (xss : String → String)
    (users' : List User) (session : Option User) (b₁ b₂ : LoginBody)
    (h₁ : ∀ u ∈ users', u.roll ≠ sanitizeField xss b₁.roll ∨
      u.password ≠ sanitizeField xss b₁.password)
    (h₂ : ∀ u ∈ users', u.roll ≠ sanitizeField xss b₂.roll ∨
      u.password ≠ sanitizeField xss b₂.password) :
    postLogin xss b₁ users' session = postLogin xss b₂ users' session := by
  simp only [postLogin, login_find_none xss b₁ users' h₁,
    login_find_none xss b₂ users' h₂]

/-- Witness for C8: the fixture roll with a wrong password versus a
non-existent roll. -/
theorem postLogin_failure_indistinguishable_witness :
    postLogin id ⟨some "22111234", some "WRONG"⟩ users none =
      postLogin id ⟨some "ghost", some "x"⟩ users none :=
  postLogin_failure_indistinguishable id users none
    ⟨some "22111234", some "WRONG"⟩ ⟨some "ghost", some "x"⟩
    (by decide) (by decide)

/-- C9: `POST /chat` replies 200 with the upstream completion's message text
when the call succeeds (and yields a first choice); when the upstream call
throws it replies 500 with the fixed generic apology; and no other outcome
is possible — the handler is total and never re-throws. -/
theorem postChat_contract (upstream : Except String ChatCompletion) :
    (∀ choice rest completion, upstream = .ok completion →
      completion.choices = choice :: rest →
      postChat upstream = { status := 200, reply := choice.message.content }) ∧
    (∀ e, upstream = .error e →
      postChat upstream =
        { status := 500, reply := "Sorry — something went wrong." }) ∧
    ((postChat upstream).status = 200 ∨
      ((postChat upstream).status = 500 ∧
        (postChat upstream).reply = "Sorry — something went wrong.")) := by
  refine ⟨?_, ?_, ?_⟩
  · intro choice rest completion h hc
    rw [h]
    simp only [postChat, hc]
  · intro e h
    rw [h]
    rfl
  · rcases upstream with e | c
    · exact Or.inr ⟨rfl, rfl⟩
    · rcases hc : c.choices with _ | ⟨ch, rest⟩
      · refine Or.inr ?_
        have he : postChat (.ok c) =
            { status := 500, reply := "Sorry — something went wrong." } := by
          simp only [postChat, hc]
        rw [he]
        exact ⟨rfl, rfl⟩
      · refine Or.inl ?_
        have he : postChat (.ok c) =
            { status := 200, reply := ch.message.content } := by
          simp only [postChat, hc]
        rw [he]

/-- Witness for C9: a successful completion with one choice, and a thrown
upstream error. -/
theorem postChat_contract_witness :
    postChat (.ok ⟨[⟨⟨"hello"⟩⟩]⟩) = { status := 200, reply := "hello" } ∧
    postChat (.error "boom") =
      { status := 500, reply := "Sorry — something went wrong." } :=
  ⟨(postChat_contract (.ok ⟨[⟨⟨"hello"⟩⟩]⟩)).1 ⟨⟨"hello"⟩⟩ [] ⟨[⟨⟨"hello"⟩⟩]⟩ rfl rfl,
   (postChat_contract (.error "boom")).2.1 "boom" rfl⟩

/-- C10: `POST /signup` performs no non-emptiness validation: with roll and
password sanitizing to the empty string, an absent role, and no existing
record with roll `""`, the signup appends a record whose roll and password
are both empty, attaches it to the session and redirects; that account can
then be logged into with empty roll and password. -/
theorem postSignup_empty_fields (xss : String → String) (body : SignupBody)
    (users' : List User) (session : Option User)
    (hroll : sanitizeField xss body.roll = "")
    (hpass : sanitizeField xss body.password = "")
    (hrole : body.role = none)
    (hfresh : ∀ u ∈ users', u.roll ≠ "") :
    postSignup xss body users' session =
      (.redirect "/student", users' ++ [signupNewUser xss body],
       some (signupNewUser xss body)) ∧
    (signupNewUser xss body).roll = "" ∧
    (signupNewUser xss body).password = "" ∧
    postLogin xss { roll := none, password := none }
        (users' ++ [signupNewUser xss body]) none =
      (.redirect "/student", some (signupNewUser xss body)) := by
  have hfresh' : ∀ u ∈ users', u.roll ≠ sanitizeField xss body.roll := by
    rw [hroll]
    exact hfresh
  have hsr : sanitizeRole xss body.role = "student" := by
    rw [hrole]
    rfl
  refine ⟨?_, ?_, ?_, ?_⟩
  · rw [postSignup_fresh_eq xss body users' session
      (signup_find_none xss body users' hfresh'), hsr]
    rfl
  · rw [signupNewUser_roll, hroll]
  · rw [signupNewUser_password, hpass]
  · have hfind : (users' ++ [signupNewUser xss body]).find?
        (fun u => u.roll == "" && u.password == "") = some (signupNewUser xss body) := by
      rw [List.find?_append]
      have h1 : users'.find? (fun u => u.roll == "" && u.password == "") = none := by
        rw [List.find?_eq_none]
        intro u hu hc
        simp only [Bool.and_eq_true, beq_iff_eq] at hc
        exact hfresh u hu hc.1
      have h2 : [signupNewUser xss body].find?
          (fun u => u.roll == "" && u.password == "") =
          some (signupNewUser xss body) := by
        rw [List.find?_cons]
        have hp : ((signupNewUser xss body).roll == "" &&
            (signupNewUser xss body).password == "") = true := by
          rw [signupNewUser_roll, signupNewUser_password, hroll, hpass]
          rfl
        rw [hp]
      rw [h1, h2]
      rfl
    simp only [postLogin, sanitizeField, hfind]
    rw [signupNewUser_role, hrole]
    rfl

/-- Witness for C10: an entirely empty signup body against the fixture
collection. -/
theorem postSignup_empty_fields_witness :
    postSignup id {} users none =
      (.redirect "/student", users ++ [signupNewUser id {}],
       some (signupNewUser id {})) ∧
    (signupNewUser id {}).roll = "" ∧
    (signupNewUser id {}).password = "" ∧
    postLogin id { roll := none, password := none } (users ++ [signupNewUser id {}])
        none =
      (.redirect "/student", some (signupNewUser id {})) :=
  postSignup_empty_fields id {} users none rfl rfl rfl (by decide)
